import Mathlib

/-
Verification of the backend process supervisor in src/src-tauri/src/lib.rs.

The supervisor keeps a `BackendState { port: Mutex<u16>, child: Mutex<Option<CommandChild>> }`
and exposes the Tauri commands `start_backend`, `stop_backend`, `get_backend_port`,
plus the internal `cleanup_backend` and the platform helper `kill_process_tree`.

Shallow embedding: every interaction with the outside world (the HTTP health
probe `reqwest::get(http://127.0.0.1:PORT/health)`, `portpicker::pick_unused_port`,
`app.path().app_data_dir()`, the sidecar spawn, `child.kill()`, and the Windows
`taskkill` invocation) is an oracle supplied in an environment record, and the
observable actions of one invocation are collected in an event trace, in
program order.  The mutex-protected state is passed explicitly.  u16 ports and
pids are modelled as Nat (no arithmetic is ever performed on them in the source).
-/

namespace Swiftgrade

/-- A spawned sidecar process handle (`tauri_plugin_shell::process::CommandChild`);
the supervisor only ever reads its pid. -/
structure Child where
  pid : Nat
deriving DecidableEq, Repr

/-- `BackendState { port: Mutex<u16>, child: Mutex<Option<CommandChild>> }`
(lib.rs lines 25-28), with the mutexes erased into a plain record that each
operation threads explicitly. -/
structure BackendState where
  port : Nat
  child : Option Child
deriving DecidableEq, Repr

/-- Outcome of one `reqwest::get` call: either an HTTP response with a numeric
status code, or a connection-level error. -/
inductive HttpResp where
  | response (status : Nat)
  | connErr
deriving DecidableEq, Repr

/-- `response.status().is_success()`: a 2xx status.  A connection error has no
status and never counts as success. -/
def HttpResp.isSuccessResp : HttpResp → Bool
  | .response s => decide (200 ≤ s) && decide (s < 300)
  | .connErr => false

/-- Observable actions of the supervisor, recorded in program order. -/
inductive Ev where
  | httpGetHealth (port : Nat) (resp : HttpResp)
  | childTaken (pid : Nat)
  | childKill (pid : Nat)
  | taskkillTree (pid : Nat)
  | pickedPort (p : Nat)
  | spawned (pid : Nat)
  | storedChild (pid : Nat)
  | storedPort (p : Nat)
  | sleep500
deriving DecidableEq, Repr

/-- Is this event an HTTP GET of the health endpoint? -/
def Ev.isProbe : Ev → Bool
  | .httpGetHealth _ _ => true
  | _ => false

/-- Is this event a 500 ms sleep? -/
def Ev.isSleep : Ev → Bool
  | .sleep500 => true
  | _ => false

/-- Is this event a process spawn? -/
def Ev.isSpawned : Ev → Bool
  | .spawned _ => true
  | _ => false

/-- Is this event a terminate signal (`child.kill()`)? -/
def Ev.isKill : Ev → Bool
  | .childKill _ => true
  | _ => false

/-- `kill_process_tree` (lib.rs lines 31-44): on Windows it runs
`taskkill /F /T /PID pid` and discards the Result (`let _ = ... .output()`);
on every other platform it does nothing.  The oracle `taskkillResult` stands
for the outcome of the `taskkill` invocation; the function ignores it. -/
def kill_process_tree (isWin : Bool) (taskkillResult : Nat → Except String Unit)
    (pid : Nat) : List Ev :=
  if isWin then
    let _ := taskkillResult pid
    [Ev.taskkillTree pid]
  else
    []

/-- Environment oracles consumed by `start_backend`:
`healthNow` is the immediate `reqwest::get` on the recorded port (line 69);
`killResult` is `child.kill()` (line 90, result discarded there);
`pickUnusedPort` is `portpicker::pick_unused_port()` (line 98);
`appDataDir` is `app.path().app_data_dir()` (line 102);
`spawnResult` is `sidecar_command.spawn()` (line 117);
`healthWait port i` is the `reqwest::get` of loop attempt `i` (line 166). -/
structure StartEnv where
  healthNow : Nat → HttpResp
  killResult : Nat → Except String Unit
  taskkillResult : Nat → Except String Unit
  isWin : Bool
  pickUnusedPort : Option Nat
  appDataDir : Except String String
  spawnResult : Except String Child
  healthWait : Nat → Nat → HttpResp

/-- The health-wait loop `for i in 0..120 { sleep(500ms); reqwest::get(...); }`
(lib.rs lines 162-187).  Each iteration sleeps 500 ms and then issues one GET;
a 2xx response sleeps one extra 500 ms and returns `Ok(port)` (lines 168-174);
any other response or a connection error consumes the attempt; exhausting the
attempts returns `Err("Backend failed to start within timeout")` (line 187).
`fuel` is the number of remaining iterations, 120 at the top-level call. -/
def healthWaitLoop (env : StartEnv) (port : Nat) : Nat → Nat → Except String Nat × List Ev
  | _, 0 => (Except.error "Backend failed to start within timeout", [])
  | i, fuel + 1 =>
    if (env.healthWait port i).isSuccessResp then
      (Except.ok port,
        [Ev.sleep500, Ev.httpGetHealth port (env.healthWait port i), Ev.sleep500])
    else
      ((healthWaitLoop env port (i + 1) fuel).1,
        Ev.sleep500 :: Ev.httpGetHealth port (env.healthWait port i) ::
          (healthWaitLoop env port (i + 1) fuel).2)

/-- The launch tail of `start_backend` (lib.rs lines 97-187): pick an unused
port (fatal `"Failed to find available port"` if none), resolve the app data
dir (fatal, error stringified), spawn the sidecar (fatal,
`"Failed to spawn backend: ..."`), store the child then the port in the state,
and run the 120-attempt health-wait loop. -/
def launchAndWait (env : StartEnv) (s : BackendState) :
    Except String Nat × BackendState × List Ev :=
  match env.pickUnusedPort with
  | none => (Except.error "Failed to find available port", s, [])
  | some port =>
    match env.appDataDir with
    | Except.error e => (Except.error e, s, [Ev.pickedPort port])
    | Except.ok _ =>
      match env.spawnResult with
      | Except.error e =>
        (Except.error ("Failed to spawn backend: " ++ e), s, [Ev.pickedPort port])
      | Except.ok child =>
        ((healthWaitLoop env port 0 120).1,
          { s with child := some child, port := port },
          [Ev.pickedPort port, Ev.spawned child.pid,
           Ev.storedChild child.pid, Ev.storedPort port] ++
            (healthWaitLoop env port 0 120).2)

/-- `start_backend` (lib.rs lines 46-188).  If a child is recorded, probe its
recorded port once: a 2xx response returns that port with the state untouched
(lines 69-73); otherwise the child is taken out of the state, `child.kill()` is
issued with its Result discarded, `kill_process_tree` runs on Windows (lines
85-95), and the launch tail proceeds.  With no recorded child the launch tail
runs directly. -/
def start_backend (env : StartEnv) (s : BackendState) :
    Except String Nat × BackendState × List Ev :=
  match s.child with
  | some oldChild =>
    if (env.healthNow s.port).isSuccessResp then
      (Except.ok s.port, s, [Ev.httpGetHealth s.port (env.healthNow s.port)])
    else
      let _ := env.killResult oldChild.pid
      ((launchAndWait env { s with child := none }).1,
        (launchAndWait env { s with child := none }).2.1,
        Ev.httpGetHealth s.port (env.healthNow s.port) ::
          Ev.childTaken oldChild.pid :: Ev.childKill oldChild.pid ::
            (kill_process_tree env.isWin env.taskkillResult oldChild.pid ++
              (launchAndWait env { s with child := none }).2.2))
  | none => launchAndWait env s

/-- Environment oracles consumed by `stop_backend` and `cleanup_backend`:
the outcome of `child.kill()` and of the Windows `taskkill`, plus the
platform flag for the `cfg(target_os = "windows")` sections. -/
structure KillEnv where
  killResult : Nat → Except String Unit
  taskkillResult : Nat → Except String Unit
  isWin : Bool

/-- `stop_backend` (lib.rs lines 190-210): take the child out of the state
(`child_guard.take()`); if one was recorded, issue `child.kill()` and
PROPAGATE its failure to the caller (`.map_err(|e| e.to_string())?`, line 201)
— on failure the early return skips `kill_process_tree`; on success the
Windows tree kill runs.  With no recorded child this returns `Ok(())` at once. -/
def stop_backend (env : KillEnv) (s : BackendState) :
    Except String Unit × BackendState × List Ev :=
  match s.child with
  | some child =>
    match env.killResult child.pid with
    | Except.error e =>
      (Except.error e, { s with child := none },
        [Ev.childTaken child.pid, Ev.childKill child.pid])
    | Except.ok _ =>
      (Except.ok (), { s with child := none },
        Ev.childTaken child.pid :: Ev.childKill child.pid ::
          kill_process_tree env.isWin env.taskkillResult child.pid)
  | none => (Except.ok (), s, [])

/-- `cleanup_backend` (lib.rs lines 342-357): take the child out of the state;
if one was recorded, issue `child.kill()` with its Result DISCARDED
(`let _ = child.kill()`, line 351) and run the Windows tree kill.  Returns
nothing: no failure can reach the caller. -/
def cleanup_backend (env : KillEnv) (s : BackendState) : BackendState × List Ev :=
  match s.child with
  | some child =>
    let _ := env.killResult child.pid
    ({ s with child := none },
      Ev.childTaken child.pid :: Ev.childKill child.pid ::
        kill_process_tree env.isWin env.taskkillResult child.pid)
  | none => (s, [])

/-- `get_backend_port` (lib.rs lines 212-215): `*state.port.lock().unwrap()` —
a pure read of the recorded port, infallible, mutating nothing. -/
def get_backend_port (s : BackendState) : Nat := s.port

/-- The state constructed in `run()` (lib.rs lines 361-364):
`port: Mutex::new(8000), child: Mutex::new(None)`. -/
def initialBackendState : BackendState := { port := 8000, child := none }

/-!
Small-step model of `start_backend` for reasoning about interleavings of two
concurrent invocations.  `start_backend` is an async Tauri command: its mutex
sections (lines 54-57, 61-64, 87-94, 124-127, 130-133 of lib.rs) are each
atomic, but nothing holds a lock across the port pick, the spawn, or any await
point, so two invocations running on the async runtime may interleave between
any two of these sections.  Each program point below is one such atomic
section (or one lock-free external call); the shared `BackendState` is read
and written only inside a step.
-/

instance : DecidableEq (Except String Nat) := fun a b =>
  match a, b with
  | .error e, .error f =>
    if h : e = f then .isTrue (by rw [h]) else .isFalse (fun hc => h (by cases hc; rfl))
  | .ok x, .ok y =>
    if h : x = y then .isTrue (by rw [h]) else .isFalse (fun hc => h (by cases hc; rfl))
  | .error _, .ok _ => .isFalse (fun hc => Except.noConfusion hc)
  | .ok _, .error _ => .isFalse (fun hc => Except.noConfusion hc)

/-- Program counter of one in-flight `start_backend` invocation, one
constructor per atomic section of lib.rs lines 46-188. -/
inductive Pc where
  | checkChild
  | readPort
  | probeOld (port : Nat)
  | takeOld
  | pickPort
  | spawnStep (port : Nat)
  | storeChild (port : Nat) (c : Child)
  | storePort (port : Nat)
  | waitReady (port : Nat) (i : Nat)
  | done (res : Except String Nat)
deriving DecidableEq, Repr

/-- One atomic step of an in-flight `start_backend` invocation with
environment `env`, acting on the shared state `sh`; returns the new shared
state, the next program point, and the events of this step.  A `done`
invocation steps to itself. -/
def stepStart (env : StartEnv) (sh : BackendState) : Pc → BackendState × Pc × List Ev
  | .checkChild =>
    if sh.child.isSome then (sh, .readPort, []) else (sh, .pickPort, [])
  | .readPort => (sh, .probeOld sh.port, [])
  | .probeOld port =>
    if (env.healthNow port).isSuccessResp then
      (sh, .done (Except.ok port), [Ev.httpGetHealth port (env.healthNow port)])
    else
      (sh, .takeOld, [Ev.httpGetHealth port (env.healthNow port)])
  | .takeOld =>
    match sh.child with
    | some c =>
      let _ := env.killResult c.pid
      ({ sh with child := none }, .pickPort,
        Ev.childTaken c.pid :: Ev.childKill c.pid ::
          kill_process_tree env.isWin env.taskkillResult c.pid)
    | none => (sh, .pickPort, [])
  | .pickPort =>
    match env.pickUnusedPort with
    | some p => (sh, .spawnStep p, [Ev.pickedPort p])
    | none => (sh, .done (Except.error "Failed to find available port"), [])
  | .spawnStep port =>
    match env.appDataDir with
    | Except.error e => (sh, .done (Except.error e), [])
    | Except.ok _ =>
      match env.spawnResult with
      | Except.error e =>
        (sh, .done (Except.error ("Failed to spawn backend: " ++ e)), [])
      | Except.ok c => (sh, .storeChild port c, [Ev.spawned c.pid])
  | .storeChild port c =>
    ({ sh with child := some c }, .storePort port, [Ev.storedChild c.pid])
  | .storePort port =>
    ({ sh with port := port }, .waitReady port 0, [Ev.storedPort port])
  | .waitReady port i =>
    if i < 120 then
      if (env.healthWait port i).isSuccessResp then
        (sh, .done (Except.ok port),
          [Ev.sleep500, Ev.httpGetHealth port (env.healthWait port i), Ev.sleep500])
      else
        (sh, .waitReady port (i + 1),
          [Ev.sleep500, Ev.httpGetHealth port (env.healthWait port i)])
    else
      (sh, .done (Except.error "Backend failed to start within timeout"), [])
  | .done r => (sh, .done r, [])

/-- Configuration of two concurrent `start_backend` invocations A and B over
the one shared `BackendState`, with the combined event trace. -/
structure Sys where
  sh : BackendState
  pcA : Pc
  pcB : Pc
  trace : List Ev
deriving DecidableEq, Repr

/-- Run one step of invocation A (when `pickA` is true) or B. -/
def stepSys (envA envB : StartEnv) (sys : Sys) (pickA : Bool) : Sys :=
  if pickA then
    { sh := (stepStart envA sys.sh sys.pcA).1,
      pcA := (stepStart envA sys.sh sys.pcA).2.1,
      pcB := sys.pcB,
      trace := sys.trace ++ (stepStart envA sys.sh sys.pcA).2.2 }
  else
    { sh := (stepStart envB sys.sh sys.pcB).1,
      pcA := sys.pcA,
      pcB := (stepStart envB sys.sh sys.pcB).2.1,
      trace := sys.trace ++ (stepStart envB sys.sh sys.pcB).2.2 }

/-- Run the two invocations under the given interleaving (one list entry per
step; `true` schedules A, `false` schedules B). -/
def runSys (envA envB : StartEnv) : List Bool → Sys → Sys
  | [], sys => sys
  | b :: rest, sys => runSys envA envB rest (stepSys envA envB sys b)

/-- The initial configuration of two concurrent `start_backend` calls with no
prior child recorded. -/
def initSys : Sys :=
  { sh := initialBackendState, pcA := .checkChild, pcB := .checkChild, trace := [] }

/-! ### Helper lemmas -/

/-- If the wait loop returns `Ok p` then `p` is the probed port and the loop
trace contains a successful GET of that port's health endpoint. -/
theorem healthWaitLoop_ok_probe (env : StartEnv) (port : Nat) :
    ∀ (i fuel : Nat), (healthWaitLoop env port i fuel).1 = Except.ok port →
      ∃ r, r.isSuccessResp = true ∧
        Ev.httpGetHealth port r ∈ (healthWaitLoop env port i fuel).2 := by
  intro i fuel
  induction fuel generalizing i with
  | zero => intro h; simp [healthWaitLoop] at h
  | succ n ih =>
    intro h
    by_cases hs : (env.healthWait port i).isSuccessResp = true
    · refine ⟨env.healthWait port i, hs, ?_⟩
      simp [healthWaitLoop, hs]
    · rw [healthWaitLoop, if_neg hs] at h ⊢
      obtain ⟨r, hr, hmem⟩ := ih (i + 1) h
      exact ⟨r, hr, by simp [hmem]⟩

/-- If the wait loop returns `Ok p` at all, `p` is the probed port. -/
theorem healthWaitLoop_ok_port (env : StartEnv) (port : Nat) :
    ∀ (i fuel p : Nat), (healthWaitLoop env port i fuel).1 = Except.ok p → p = port := by
  intro i fuel
  induction fuel generalizing i with
  | zero => intro p h; simp [healthWaitLoop] at h
  | succ n ih =>
    intro p h
    by_cases hs : (env.healthWait port i).isSuccessResp = true
    · rw [healthWaitLoop, if_pos hs] at h
      exact (Except.ok.inj h).symm
    · rw [healthWaitLoop, if_neg hs] at h
      exact ih (i + 1) p h

/-- If every attempt the loop can make fails, it returns the timeout error and
its trace holds exactly one GET and one sleep per attempt. -/
theorem healthWaitLoop_all_fail (env : StartEnv) (port : Nat) :
    ∀ (fuel i : Nat), (∀ j, j < fuel → (env.healthWait port (i + j)).isSuccessResp = false) →
      (healthWaitLoop env port i fuel).1 =
          Except.error "Backend failed to start within timeout" ∧
        ((healthWaitLoop env port i fuel).2.countP Ev.isProbe) = fuel ∧
        ((healthWaitLoop env port i fuel).2.countP Ev.isSleep) = fuel := by
  intro fuel
  induction fuel with
  | zero => intro i _; simp [healthWaitLoop]
  | succ n ih =>
    intro i hfail
    have h0 : (env.healthWait port i).isSuccessResp = false := by
      have := hfail 0 (Nat.succ_pos n)
      simpa using this
    have hrest : ∀ j, j < n → (env.healthWait port (i + 1 + j)).isSuccessResp = false := by
      intro j hj
      have := hfail (j + 1) (Nat.succ_lt_succ hj)
      simpa [Nat.add_assoc, Nat.add_comm 1 j] using this
    obtain ⟨hres, hprobe, hsleep⟩ := ih (i + 1) hrest
    rw [healthWaitLoop, if_neg (by simp [h0])]
    refine ⟨hres, ?_, ?_⟩
    · simp [List.countP_cons, Ev.isProbe, Ev.isSleep, hprobe]
    · simp [List.countP_cons, Ev.isProbe, Ev.isSleep, hsleep]

/-- If the launch tail returns `Ok p` then its trace contains a successful GET
of port `p`'s health endpoint. -/
theorem launchAndWait_ok_probe (env : StartEnv) (s : BackendState) (p : Nat)
    (h : (launchAndWait env s).1 = Except.ok p) :
    ∃ r, r.isSuccessResp = true ∧
      Ev.httpGetHealth p r ∈ (launchAndWait env s).2.2 := by
  unfold launchAndWait at h ⊢
  cases hpick : env.pickUnusedPort with
  | none => simp [hpick] at h
  | some port =>
    cases hdir : env.appDataDir with
    | error e => simp [hpick, hdir] at h
    | ok d =>
      cases hspawn : env.spawnResult with
      | error e => simp [hpick, hdir, hspawn] at h
      | ok child =>
        simp only [hpick, hdir, hspawn] at h ⊢
        have hp : p = port := healthWaitLoop_ok_port env port 0 120 p h
        subst hp
        obtain ⟨r, hr, hmem⟩ := healthWaitLoop_ok_probe env p 0 120 h
        exact ⟨r, hr, by simp [hmem]⟩

/-! ### Claim theorems -/

/-- Claim C1: whenever `start_backend` returns `Ok p`, its event trace
contains an HTTP GET of `http://127.0.0.1:p/health` that received a success
(2xx) response — `start()` never returns a port whose health endpoint has not
succeeded during that invocation. -/
theorem start_backend_health_gated (env : StartEnv) (s : BackendState) (p : Nat)
    (h : (start_backend env s).1 = Except.ok p) :
    ∃ r, r.isSuccessResp = true ∧
      Ev.httpGetHealth p r ∈ (start_backend env s).2.2 := by
  unfold start_backend at h ⊢
  cases hc : s.child with
  | none =>
    rw [hc] at h
    exact launchAndWait_ok_probe env s p h
  | some oldChild =>
    rw [hc] at h
    by_cases hs : (env.healthNow s.port).isSuccessResp = true
    · simp only [hs, if_true] at h ⊢
      have hp : p = s.port := (Except.ok.inj h).symm
      subst hp
      exact ⟨env.healthNow s.port, hs, by simp⟩
    · simp only [Bool.not_eq_true] at hs
      simp only [hs, Bool.false_eq_true, if_false] at h ⊢
      obtain ⟨r, hr, hmem⟩ :=
        launchAndWait_ok_probe env { s with child := none } p h
      exact ⟨r, hr, by simp [hmem]⟩

/-- A concrete environment in which the backend spawns and becomes healthy on
the third wait-loop attempt (attempt index 2). -/
def readyEnv : StartEnv :=
  { healthNow := fun _ => HttpResp.connErr
    killResult := fun _ => Except.ok ()
    taskkillResult := fun _ => Except.ok ()
    isWin := false
    pickUnusedPort := some 54211
    appDataDir := Except.ok "appdata"
    spawnResult := Except.ok { pid := 42 }
    healthWait := fun _ i => if i = 2 then HttpResp.response 200 else HttpResp.connErr }

/-- Witness for C1: in `readyEnv` from the initial state, `start_backend`
returns `Ok 54211` and the trace indeed holds a successful probe of 54211. -/
theorem start_backend_health_gated_witness :
    ∃ r, r.isSuccessResp = true ∧
      Ev.httpGetHealth 54211 r ∈ (start_backend readyEnv initialBackendState).2.2 :=
  start_backend_health_gated readyEnv initialBackendState 54211 (by decide)

/-- Claim C4: with a recorded child whose single immediate probe of the
recorded port succeeds, `start_backend` returns the recorded port, leaves the
state exactly as it was, and its whole trace is that one probe — no port
allocated, no process spawned, nothing stored. -/
theorem start_backend_idempotent_when_healthy (env : StartEnv) (s : BackendState)
    (c : Child) (hc : s.child = some c)
    (hh : (env.healthNow s.port).isSuccessResp = true) :
    start_backend env s =
      (Except.ok s.port, s, [Ev.httpGetHealth s.port (env.healthNow s.port)]) := by
  unfold start_backend
  rw [hc]
  simp [hh]

/-- Witness for C4: concrete healthy-child state and environment. -/
theorem start_backend_idempotent_when_healthy_witness :
    start_backend { readyEnv with healthNow := fun _ => HttpResp.response 204 }
        { port := 4321, child := some { pid := 9 } } =
      (Except.ok 4321, { port := 4321, child := some { pid := 9 } },
        [Ev.httpGetHealth 4321 (HttpResp.response 204)]) :=
  start_backend_idempotent_when_healthy
    { readyEnv with healthNow := fun _ => HttpResp.response 204 }
    { port := 4321, child := some { pid := 9 } } { pid := 9 } rfl (by decide)

/-- If the port pick, directory lookup and spawn succeed but every one of the
120 wait-loop probes fails, the launch tail returns the timeout error, leaves
the new child and port recorded, and its trace holds exactly 120 probes and
120 sleeps. -/
theorem launchAndWait_timeout (env : StartEnv) (s : BackendState) (p : Nat) (c : Child)
    (hpick : env.pickUnusedPort = some p)
    (hdir : ∃ d, env.appDataDir = Except.ok d)
    (hspawn : env.spawnResult = Except.ok c)
    (hfail : ∀ i, i < 120 → (env.healthWait p i).isSuccessResp = false) :
    (launchAndWait env s).1 = Except.error "Backend failed to start within timeout" ∧
      (launchAndWait env s).2.1 = { s with child := some c, port := p } ∧
      ((launchAndWait env s).2.2.countP Ev.isProbe) = 120 ∧
      ((launchAndWait env s).2.2.countP Ev.isSleep) = 120 := by
  obtain ⟨d, hd⟩ := hdir
  obtain ⟨hres, hprobe, hsleep⟩ :=
    healthWaitLoop_all_fail env p 120 0 (fun j hj => by simpa using hfail j hj)
  unfold launchAndWait
  rw [hpick, hd, hspawn]
  refine ⟨hres, rfl, ?_, ?_⟩
  · simp [List.countP_append, List.countP_cons, Ev.isProbe, hprobe]
  · simp [List.countP_append, List.countP_cons, Ev.isSleep, hsleep]

/-- Claim C2: when no child is recorded and no health probe ever succeeds
(port pick, directory lookup and spawn succeeding), `start_backend` performs
exactly 120 probe attempts, each preceded by one 500 ms sleep, and returns the
error `"Backend failed to start within timeout"`.  The loop is structurally
bounded by its 120-iteration fuel, so `start_backend` is a total function and
cannot hang. -/
theorem start_backend_timeout_bound (env : StartEnv) (s : BackendState) (p : Nat)
    (hchild : s.child = none)
    (hpick : env.pickUnusedPort = some p)
    (hdir : ∃ d, env.appDataDir = Except.ok d)
    (hspawn : ∃ c, env.spawnResult = Except.ok c)
    (hfail : ∀ i, i < 120 → (env.healthWait p i).isSuccessResp = false) :
    (start_backend env s).1 = Except.error "Backend failed to start within timeout" ∧
      ((start_backend env s).2.2.countP Ev.isProbe) = 120 ∧
      ((start_backend env s).2.2.countP Ev.isSleep) = 120 := by
  obtain ⟨c, hc⟩ := hspawn
  obtain ⟨h1, _, h3, h4⟩ := launchAndWait_timeout env s p c hpick hdir hc hfail
  unfold start_backend
  rw [hchild]
  exact ⟨h1, h3, h4⟩

/-- A concrete environment in which every health probe fails (HTTP 503). -/
def timeoutEnv : StartEnv :=
  { healthNow := fun _ => HttpResp.connErr
    killResult := fun _ => Except.ok ()
    taskkillResult := fun _ => Except.ok ()
    isWin := false
    pickUnusedPort := some 54321
    appDataDir := Except.ok "appdata"
    spawnResult := Except.ok { pid := 42 }
    healthWait := fun _ _ => HttpResp.response 503 }

/-- Witness for C2: in `timeoutEnv` from the initial state, `start_backend`
makes its 120 probes and 120 sleeps and returns the timeout error. -/
theorem start_backend_timeout_bound_witness :
    (start_backend timeoutEnv initialBackendState).1 =
        Except.error "Backend failed to start within timeout" ∧
      ((start_backend timeoutEnv initialBackendState).2.2.countP Ev.isProbe) = 120 ∧
      ((start_backend timeoutEnv initialBackendState).2.2.countP Ev.isSleep) = 120 :=
  start_backend_timeout_bound timeoutEnv initialBackendState 54321 rfl rfl
    ⟨"appdata", rfl⟩ ⟨{ pid := 42 }, rfl⟩ (fun _ _ => rfl)

/-- Claim C7: when `start_backend` reaches the launch (no recorded child, or a
recorded child whose immediate probe fails) and the health-wait loop times
out, the result is the timeout error while the newly spawned child stays
recorded in the state and the recorded port stays the newly allocated one —
no kill, no rollback. -/
theorem start_backend_timeout_keeps_child (env : StartEnv) (s : BackendState)
    (p : Nat) (c : Child)
    (hpick : env.pickUnusedPort = some p)
    (hdir : ∃ d, env.appDataDir = Except.ok d)
    (hspawn : env.spawnResult = Except.ok c)
    (hfail : ∀ i, i < 120 → (env.healthWait p i).isSuccessResp = false)
    (hentry : s.child = none ∨ (env.healthNow s.port).isSuccessResp = false) :
    (start_backend env s).1 = Except.error "Backend failed to start within timeout" ∧
      (start_backend env s).2.1.child = some c ∧
      (start_backend env s).2.1.port = p := by
  unfold start_backend
  cases hc : s.child with
  | none =>
    obtain ⟨h1, h2, _, _⟩ := launchAndWait_timeout env s p c hpick hdir hspawn hfail
    exact ⟨h1, by rw [h2], by rw [h2]⟩
  | some oldChild =>
    have hh : (env.healthNow s.port).isSuccessResp = false := by
      rcases hentry with hnone | hfalse
      · rw [hc] at hnone; exact absurd hnone (by simp)
      · exact hfalse
    simp only [hh, Bool.false_eq_true, if_false]
    obtain ⟨h1, h2, _, _⟩ :=
      launchAndWait_timeout env { s with child := none } p c hpick hdir hspawn hfail
    exact ⟨h1, by rw [h2], by rw [h2]⟩

/-- Witness for C7: `timeoutEnv` with a stale child recorded on port 8000;
the timeout leaves the new child (pid 42) and new port 54321 recorded. -/
theorem start_backend_timeout_keeps_child_witness :
    (start_backend timeoutEnv { port := 8000, child := some { pid := 7 } }).1 =
        Except.error "Backend failed to start within timeout" ∧
      (start_backend timeoutEnv { port := 8000, child := some { pid := 7 } }).2.1.child =
        some { pid := 42 } ∧
      (start_backend timeoutEnv { port := 8000, child := some { pid := 7 } }).2.1.port =
        54321 :=
  start_backend_timeout_keeps_child timeoutEnv { port := 8000, child := some { pid := 7 } }
    54321 { pid := 42 } rfl ⟨"appdata", rfl⟩ rfl (fun _ _ => rfl)
    (Or.inr (by decide))

/-- Claim C5: within one `start_backend` invocation whose recorded child fails
the immediate probe, the trace positions show the old child taken out of the
state and then signalled for termination strictly before any port allocation
and before any spawn. -/
theorem start_backend_kills_old_before_launch (env : StartEnv) (s : BackendState)
    (c : Child) (hc : s.child = some c)
    (hh : (env.healthNow s.port).isSuccessResp = false) :
    ∃ k i, k < i ∧
      (start_backend env s).2.2.get? k = some (Ev.childTaken c.pid) ∧
      (start_backend env s).2.2.get? i = some (Ev.childKill c.pid) ∧
      (∀ j q, (start_backend env s).2.2.get? j = some (Ev.pickedPort q) → i < j) ∧
      (∀ j q, (start_backend env s).2.2.get? j = some (Ev.spawned q) → i < j) := by
  unfold start_backend
  rw [hc]
  simp only [hh, Bool.false_eq_true, if_false]
  refine ⟨1, 2, Nat.one_lt_two, rfl, rfl, ?_, ?_⟩
  · intro j q hj
    rcases j with _ | _ | _ | j
    · simp at hj
    · simp at hj
    · simp at hj
    · omega
  · intro j q hj
    rcases j with _ | _ | _ | j
    · simp at hj
    · simp at hj
    · simp at hj
    · omega

/-- Witness for C5: stale child (pid 7) on port 8000 in `readyEnv`, whose
immediate probe is a connection error. -/
theorem start_backend_kills_old_before_launch_witness :
    ∃ k i, k < i ∧
      (start_backend readyEnv { port := 8000, child := some { pid := 7 } }).2.2.get? k =
        some (Ev.childTaken 7) ∧
      (start_backend readyEnv { port := 8000, child := some { pid := 7 } }).2.2.get? i =
        some (Ev.childKill 7) ∧
      (∀ j q, (start_backend readyEnv { port := 8000, child := some { pid := 7 } }).2.2.get? j =
        some (Ev.pickedPort q) → i < j) ∧
      (∀ j q, (start_backend readyEnv { port := 8000, child := some { pid := 7 } }).2.2.get? j =
        some (Ev.spawned q) → i < j) :=
  start_backend_kills_old_before_launch readyEnv
    { port := 8000, child := some { pid := 7 } } { pid := 7 } rfl rfl

/-- Claim C6: stopping with no recorded child returns `Ok(())` at once with no
signal issued and the state untouched, and doing it again — even under a
different kill environment — succeeds identically. -/
theorem stop_backend_noop_idempotent (env env2 : KillEnv) (s : BackendState)
    (h : s.child = none) :
    stop_backend env s = (Except.ok (), s, []) ∧
      stop_backend env2 (stop_backend env s).2.1 = (Except.ok (), s, []) := by
  have h1 : stop_backend env s = (Except.ok (), s, []) := by
    unfold stop_backend
    rw [h]
  refine ⟨h1, ?_⟩
  rw [h1]
  unfold stop_backend
  rw [h]

/-- A kill environment in which every kill succeeds, off Windows. -/
def okKillEnv : KillEnv :=
  { killResult := fun _ => Except.ok ()
    taskkillResult := fun _ => Except.ok ()
    isWin := false }

/-- Witness for C6: two consecutive stops from the initial (childless) state. -/
theorem stop_backend_noop_idempotent_witness :
    stop_backend okKillEnv initialBackendState = (Except.ok (), initialBackendState, []) ∧
      stop_backend okKillEnv (stop_backend okKillEnv initialBackendState).2.1 =
        (Except.ok (), initialBackendState, []) :=
  stop_backend_noop_idempotent okKillEnv okKillEnv initialBackendState rfl

/-- Claim C8: `stop_backend` always leaves `child = none` — the take happens
before the terminate signal, so a kill failure cannot prevent untracking — and
with a recorded child its trace begins with the take followed by the kill
signal, in that order. -/
theorem stop_backend_untracks_always (env : KillEnv) (s : BackendState) (p pid : Nat) :
    (stop_backend env s).2.1.child = none ∧
      ∃ tail, (stop_backend env { port := p, child := some { pid := pid } }).2.2 =
        Ev.childTaken pid :: Ev.childKill pid :: tail := by
  constructor
  · cases hc : s.child with
    | none => simp [stop_backend, hc]
    | some c =>
      cases hk : env.killResult c.pid with
      | error e => simp [stop_backend, hc, hk]
      | ok u => simp [stop_backend, hc, hk]
  · cases hk : env.killResult pid with
    | error e => exact ⟨[], by simp [stop_backend, hk]⟩
    | ok u =>
      exact ⟨kill_process_tree env.isWin env.taskkillResult pid, by simp [stop_backend, hk]⟩

/-- A kill environment whose terminate signal always fails. -/
def failingKillEnv : KillEnv :=
  { killResult := fun _ => Except.error "kill failed"
    taskkillResult := fun _ => Except.ok ()
    isWin := false }

/-- Claim C3 counterexample: with a recorded child whose `child.kill()` fails,
`stop_backend` RETURNS that failure to its caller (lib.rs line 201 applies `?`
to the kill Result) — refuting the claim that a terminate-signal failure during
stop() is swallowed and never escalated. -/
theorem stop_backend_propagates_kill_failure :
    (stop_backend failingKillEnv { port := 8000, child := some { pid := 7 } }).1 =
      Except.error "kill failed" := rfl

/-- Claim C3 (amended): `cleanup_backend` swallows kill and tree-kill failures
entirely (its outcome is independent of both oracles), `stop_backend` ignores
the forced tree-kill's outcome, but `stop_backend` propagates a failure of the
terminate signal itself to its caller as its error result. -/
theorem cleanup_swallows_stop_propagates :
    (∀ (k k2 t t2 : Nat → Except String Unit) (w : Bool) (s : BackendState),
      cleanup_backend { killResult := k, taskkillResult := t, isWin := w } s =
        cleanup_backend { killResult := k2, taskkillResult := t2, isWin := w } s) ∧
    (∀ (k t t2 : Nat → Except String Unit) (w : Bool) (s : BackendState),
      stop_backend { killResult := k, taskkillResult := t, isWin := w } s =
        stop_backend { killResult := k, taskkillResult := t2, isWin := w } s) ∧
    (∀ (env : KillEnv) (p pid : Nat),
      (stop_backend env { port := p, child := some { pid := pid } }).1 =
        (match env.killResult pid with
          | Except.error e => Except.error e
          | Except.ok _ => Except.ok ())) := by
  refine ⟨?_, ?_, ?_⟩
  · intro k k2 t t2 w s
    unfold cleanup_backend
    cases s.child with
    | none => rfl
    | some c => rfl
  · intro k t t2 w s
    unfold stop_backend
    cases s.child with
    | none => rfl
    | some c =>
      cases k c.pid with
      | error e => rfl
      | ok u => rfl
  · intro env p pid
    cases hk : env.killResult pid with
    | error e => simp [stop_backend, hk]
    | ok u => simp [stop_backend, hk]

/-- Claim C10: the state constructed in `run()` records port 8000 before any
start, so `get_backend_port` returns 8000 there; in general it is the pure,
infallible projection of the recorded port and touches nothing. -/
theorem get_backend_port_initial (s : BackendState) :
    get_backend_port initialBackendState = 8000 ∧ get_backend_port s = s.port :=
  ⟨rfl, rfl⟩

/-! ### Two concurrent starts (claim C9) -/

/-- Environment of concurrent invocation A: picks port 54211, spawns pid 1,
backend immediately healthy. -/
def raceEnvA : StartEnv :=
  { healthNow := fun _ => HttpResp.connErr
    killResult := fun _ => Except.ok ()
    taskkillResult := fun _ => Except.ok ()
    isWin := false
    pickUnusedPort := some 54211
    appDataDir := Except.ok "appdata"
    spawnResult := Except.ok { pid := 1 }
    healthWait := fun _ _ => HttpResp.response 200 }

/-- Environment of concurrent invocation B: picks port 54987, spawns pid 2. -/
def raceEnvB : StartEnv :=
  { raceEnvA with
    pickUnusedPort := some 54987
    spawnResult := Except.ok { pid := 2 } }

/-- The interleaving in which both invocations pass the child-presence check
(both observing `child = None`) before either spawns, then each runs to
completion. -/
def raceSchedule : List Bool :=
  [true, false, true, true, true, true, true, false, false, false, false, false]

/-- The configuration reached by two concurrent `start_backend` calls from the
initial state under `raceSchedule`. -/
def raceRun : Sys := runSys raceEnvA raceEnvB raceSchedule initSys

/-- Claim C9 counterexample: under `raceSchedule` both concurrent starts pass
the `child.is_some()` check before either stores its child, so TWO spawns
occur and the calls return DIFFERENT ports (54211 and 54987) — refuting the
claim that every interleaving of two concurrent starts spawns exactly once and
returns the same port from both calls. -/
theorem two_concurrent_starts_double_spawn :
    raceRun.pcA = Pc.done (Except.ok 54211) ∧
      raceRun.pcB = Pc.done (Except.ok 54987) ∧
      raceRun.trace.countP Ev.isSpawned = 2 := by decide

/-- Claim C9 (amended): the state's mutexes make individual accesses atomic,
so at most one child is ever recorded, but they do not serialize whole
invocations: there is an interleaving of two concurrent starts with no prior
child in which two spawns occur, the calls return different ports, no kill
signal is ever issued, and the final state records only the second child —
the first spawned process is silently overwritten and leaked. -/
theorem two_concurrent_starts_race_outcome :
    raceRun.trace.countP Ev.isSpawned = 2 ∧
      raceRun.pcA = Pc.done (Except.ok 54211) ∧
      raceRun.pcB = Pc.done (Except.ok 54987) ∧
      raceRun.trace.countP Ev.isKill = 0 ∧
      raceRun.sh.child = some { pid := 2 } ∧
      raceRun.sh.port = 54987 := by decide

/-- Sanity link between the two models of `start_backend`: scheduled solo
(invocation B never runs), the small-step machine reaches `done` with the same
result and the same event trace as the big-step `start_backend`. -/
theorem solo_run_matches_start_backend :
    (runSys raceEnvA raceEnvB [true, true, true, true, true, true] initSys).pcA =
        Pc.done (start_backend raceEnvA initialBackendState).1 ∧
      (runSys raceEnvA raceEnvB [true, true, true, true, true, true] initSys).trace =
        (start_backend raceEnvA initialBackendState).2.2 := by decide

end Swiftgrade
